import Mathlib

/-!
Verification of the rustdoc "implementors" index files of the repository:

  docs/implementors/core/ops/deref/trait.DerefMut.js
  docs/implementors/identity_core/crypto/signature/traits/trait.TrySignature.js
  docs/implementors/identity_core/crypto/signature/traits/trait.TrySignatureMut.js
  docs/implementors/identity_core/crypto/signature/traits/trait.SetSignature.js

Each file is an IIFE of the shape

  (function() \x7bvar implementors = \x7b\x7d;
  implementors["crate"] = [ \x7b"text":"...","synthetic":false,"types":[]\x7d, ... ];
  ...
  if (window.register_implementors) \x7bwindow.register_implementors(implementors);\x7d
  else \x7bwindow.pending_implementors = implementors;\x7d\x7d)()

We embed the record data, the registry-object construction (a sequence of
property assignments on an initially empty object), and the final
callback/pending handshake as a function on an explicit window state.
-/

/-- One implementor record, mirroring the JSON object literals in the four
files: each has exactly the three fields text, synthetic and types. -/
structure Entry where
  text : String
  synthetic : Bool
  types : List String
deriving DecidableEq, Repr

/-- A registry object: an ordered association of crate-name keys to lists of
implementor records, in property-insertion order. -/
abbrev Registry := List (String × List Entry)

/-- Property assignment on a registry object, mirroring the JS statement
implementors["k"] = v: overwrite in place when the key exists, otherwise
append the new key at the end (JS object insertion order). -/
def objSet (r : Registry) (k : String) (v : List Entry) : Registry :=
  if r.any (fun p => p.1 == k) then
    r.map (fun p => if p.1 == k then (k, v) else p)
  else
    r ++ [(k, v)]

/-- The registry built by trait.DerefMut.js, lines 2-5: the four crate
assignments in source order, starting from the empty object. -/
def derefMutImplementors : Registry :=
  objSet (objSet (objSet (objSet [] "identity_core"
    [ { text := "impl DerefMut for Url", synthetic := false, types := [] },
      { text := "impl DerefMut for Signature", synthetic := false, types := [] },
      { text := "impl DerefMut for SignatureValue", synthetic := false, types := [] } ])
    "identity_credential"
    [ { text := "impl&lt;T&gt; DerefMut for VerifiableCredential&lt;T&gt;", synthetic := false, types := [] },
      { text := "impl&lt;T, U&gt; DerefMut for VerifiablePresentation&lt;T, U&gt;", synthetic := false, types := [] } ])
    "identity_did"
    [ { text := "impl&lt;T&gt; DerefMut for DIDKey&lt;T&gt;", synthetic := false, types := [] },
      { text := "impl&lt;T&gt; DerefMut for Properties&lt;T&gt;", synthetic := false, types := [] } ])
    "identity_iota"
    [ { text := "impl&lt;T&gt; DerefMut for MessageIndex&lt;T&gt;", synthetic := false, types := [] } ]

/-- The registry built by trait.TrySignature.js, lines 2-5. -/
def trySignatureImplementors : Registry :=
  objSet (objSet (objSet (objSet [] "identity_core" [])
    "identity_credential"
    [ { text := "impl&lt;T&gt; TrySignature for VerifiableCredential&lt;T&gt;", synthetic := false, types := [] },
      { text := "impl&lt;T, U&gt; TrySignature for VerifiablePresentation&lt;T, U&gt;", synthetic := false, types := [] } ])
    "identity_did"
    [ { text := "impl&lt;T, U, V&gt; TrySignature for Document&lt;Properties&lt;T&gt;, U, V&gt;", synthetic := false, types := [] },
      { text := "impl&lt;T&gt; TrySignature for Properties&lt;T&gt;", synthetic := false, types := [] } ])
    "identity_iota"
    [ { text := "impl TrySignature for IotaDocument", synthetic := false, types := [] },
      { text := "impl TrySignature for DocumentDiff", synthetic := false, types := [] } ]

/-- The registry built by trait.TrySignatureMut.js, lines 2-5. -/
def trySignatureMutImplementors : Registry :=
  objSet (objSet (objSet (objSet [] "identity_core" [])
    "identity_credential"
    [ { text := "impl&lt;T&gt; TrySignatureMut for VerifiableCredential&lt;T&gt;", synthetic := false, types := [] },
      { text := "impl&lt;T, U&gt; TrySignatureMut for VerifiablePresentation&lt;T, U&gt;", synthetic := false, types := [] } ])
    "identity_did"
    [ { text := "impl&lt;T, U, V&gt; TrySignatureMut for Document&lt;Properties&lt;T&gt;, U, V&gt;", synthetic := false, types := [] },
      { text := "impl&lt;T&gt; TrySignatureMut for Properties&lt;T&gt;", synthetic := false, types := [] } ])
    "identity_iota"
    [ { text := "impl TrySignatureMut for DocumentDiff", synthetic := false, types := [] },
      { text := "impl TrySignatureMut for Document", synthetic := false, types := [] } ]

/-- The registry built by trait.SetSignature.js, lines 2-5. -/
def setSignatureImplementors : Registry :=
  objSet (objSet (objSet (objSet [] "identity_core" [])
    "identity_credential"
    [ { text := "impl&lt;T&gt; SetSignature for VerifiableCredential&lt;T&gt;", synthetic := false, types := [] },
      { text := "impl&lt;T, U&gt; SetSignature for VerifiablePresentation&lt;T, U&gt;", synthetic := false, types := [] } ])
    "identity_did"
    [ { text := "impl&lt;T, U, V&gt; SetSignature for Document&lt;Properties&lt;T&gt;, U, V&gt;", synthetic := false, types := [] },
      { text := "impl&lt;T&gt; SetSignature for Properties&lt;T&gt;", synthetic := false, types := [] } ])
    "identity_iota"
    [ { text := "impl SetSignature for IotaDocument", synthetic := false, types := [] },
      { text := "impl SetSignature for DocumentDiff", synthetic := false, types := [] } ]

/-- The four implementor files of the repository. -/
inductive ImplFile where
  | derefMut
  | trySignature
  | trySignatureMut
  | setSignature
deriving DecidableEq, Repr

/-- The registry object each file builds before the handshake. -/
def registryOf : ImplFile → Registry
  | .derefMut => derefMutImplementors
  | .trySignature => trySignatureImplementors
  | .trySignatureMut => trySignatureMutImplementors
  | .setSignature => setSignatureImplementors

/-- The single trait each file indexes, taken from its filename and from the
descriptor strings it contains. -/
def traitOf : ImplFile → String
  | .derefMut => "DerefMut"
  | .trySignature => "TrySignature"
  | .trySignatureMut => "TrySignatureMut"
  | .setSignature => "SetSignature"

/-- Lookup of a crate key in a registry object (first matching key). -/
def regLookup (k : String) : Registry → Option (List Entry)
  | [] => none
  | (k2, v) :: rest => if k2 = k then some v else regLookup k rest

/-- A JavaScript value as far as these scripts can observe one: a function
(identified abstractly by an id), a registry object, or any other value
abstracted to its truthiness. -/
inductive JSVal where
  | func (id : Nat)
  | registry (r : Registry)
  | prim (truthyFlag : Bool)
deriving DecidableEq, Repr

/-- JavaScript truthiness of the modelled values: functions and objects are
truthy, other values carry their truthiness explicitly. -/
def truthy : JSVal → Bool
  | .func _ => true
  | .registry _ => true
  | .prim b => b

/-- The global window object: a partial assignment of values to property
names. -/
structure Window where
  props : String → Option JSVal

/-- Property assignment window.k = v. -/
def Window.set (w : Window) (k : String) (v : JSVal) : Window :=
  ⟨fun p => if p = k then some v else w.props p⟩

/-- Whether the condition of the handshake, if (window.register_implementors),
holds in a window state. -/
def isTruthyReg (w : Window) : Bool :=
  match w.props "register_implementors" with
  | some v => truthy v
  | none => false

/-- The handshake at the end of each file (line 6):
if (window.register_implementors) window.register_implementors(implementors);
else window.pending_implementors = implementors.
The parameter cbOk is an oracle telling whether the external callback with a
given id returns normally on a given argument; the callback invocation is
recorded as an event (second component) and its own effects are external to
the script. The result is none when evaluation throws: either the callback
throws, or the truthy value stored under register_implementors is not
callable (a TypeError in JavaScript). -/
def evalScript (cbOk : Nat → Registry → Bool) (reg : Registry) (w : Window) :
    Option (Window × List (Nat × Registry)) :=
  match w.props "register_implementors" with
  | some v =>
    if truthy v then
      match v with
      | .func id => if cbOk id reg then some (w, [(id, reg)]) else none
      | _ => none
    else
      some (w.set "pending_implementors" (.registry reg), [])
  | none => some (w.set "pending_implementors" (.registry reg), [])

/-- Evaluation of one of the four implementor files on a window state: the
file builds its registry object and then performs the handshake. -/
def evalImplFile (cbOk : Nat → Registry → Bool) (f : ImplFile) (w : Window) :
    Option (Window × List (Nat × Registry)) :=
  evalScript cbOk (registryOf f) w

/-- Sequential evaluation of two implementor files, returning the final
window state (none when either evaluation throws). -/
def evalTwo (cbOk : Nat → Registry → Bool) (f1 f2 : ImplFile) (w : Window) :
    Option Window :=
  match evalScript cbOk (registryOf f1) w with
  | some (w1, _) =>
    match evalScript cbOk (registryOf f2) w1 with
    | some (w2, _) => some w2
    | none => none
  | none => none

/-- The window state with no properties set. -/
def emptyWindow : Window := ⟨fun _ => none⟩

/-- A window state in which register_implementors holds the function with
id 0 and nothing else is set. -/
def funcWindow : Window :=
  ⟨fun p => if p = "register_implementors" then some (JSVal.func 0) else none⟩

/-- A callback oracle under which every callback invocation returns
normally. -/
def cbAlwaysOk : Nat → Registry → Bool := fun _ _ => true

theorem set_props_eq (w : Window) (k : String) (v : JSVal) :
    (w.set k v).props k = some v := by
  simp [Window.set]

theorem set_props_ne (w : Window) (k k2 : String) (v : JSVal) (h : k2 ≠ k) :
    (w.set k v).props k2 = w.props k2 := by
  simp [Window.set, h]

/-- Decoding of the two HTML entities used by the descriptor strings:
the entity for the left angle bracket becomes the character, likewise for
the right one; everything else is copied. -/
def unescape : List Char → List Char
  | '&' :: 'l' :: 't' :: ';' :: rest => '<' :: unescape rest
  | '&' :: 'g' :: 't' :: ';' :: rest => '>' :: unescape rest
  | c :: rest => c :: unescape rest
  | [] => []

/-- HTML-escaping of the two angle-bracket characters, inverse to unescape
on well-formed strings. -/
def escapeAngles : List Char → List Char
  | [] => []
  | '<' :: rest => '&' :: 'l' :: 't' :: ';' :: escapeAngles rest
  | '>' :: rest => '&' :: 'g' :: 't' :: ';' :: escapeAngles rest
  | c :: rest => c :: escapeAngles rest

/-- Splitting a character list at the first occurrence of a (nonempty)
pattern: returns the part before the pattern and the part after it, or none
when the pattern does not occur. -/
def splitAtSub (pat : List Char) : List Char → Option (List Char × List Char)
  | [] => none
  | c :: rest =>
    if pat.isPrefixOf (c :: rest) then
      some ([], (c :: rest).drop pat.length)
    else
      match splitAtSub pat rest with
      | some (pre, post) => some (c :: pre, post)
      | none => none

/-- Splitting a character list on commas. -/
def splitComma : List Char → List Char → List (List Char)
  | acc, [] => [acc.reverse]
  | acc, ',' :: rest => acc.reverse :: splitComma [] rest
  | acc, c :: rest => splitComma (c :: acc) rest

/-- Removal of leading spaces. -/
def trimLeading (cs : List Char) : List Char :=
  cs.dropWhile (fun c => c == ' ')

/-- A parsed impl descriptor: the generic-parameter list, the trait name and
the implementing type, as in impl<generics> Trait for Type. -/
structure Descriptor where
  generics : List String
  traitName : String
  selfType : String
deriving DecidableEq, Repr

/-- Parsing of the part of a descriptor after the generics: a trait name
(nonempty, without spaces), the keyword for, and a nonempty implementing
type. -/
def parseTail (generics : List String) (cs : List Char) : Option Descriptor :=
  match splitAtSub [' ', 'f', 'o', 'r', ' '] cs with
  | some (traitCs, typeCs) =>
    if traitCs ≠ [] ∧ typeCs ≠ [] ∧ traitCs.all (fun c => c ≠ ' ') then
      some { generics := generics, traitName := ⟨traitCs⟩, selfType := ⟨typeCs⟩ }
    else
      none
  | none => none

/-- Parsing of a text field of an implementor record: the entities are
decoded, then the string must read impl, an optional angle-bracketed
comma-separated generic-parameter list, a trait name, the keyword for, and
the implementing type. -/
def parseImplText (s : String) : Option Descriptor :=
  match unescape s.data with
  | 'i' :: 'm' :: 'p' :: 'l' :: rest =>
    match rest with
    | '<' :: rest2 =>
      match splitAtSub ['>'] rest2 with
      | some (genCs, post) =>
        match post with
        | ' ' :: tailCs =>
          let gens := (splitComma [] genCs).map (fun g => (⟨trimLeading g⟩ : String))
          if gens.all (fun g => g ≠ "") then parseTail gens tailCs else none
        | _ => none
      | none => none
    | ' ' :: tailCs => parseTail [] tailCs
    | _ => none
  | _ => none

/-- Comma-space joining of the generic parameters, as rustdoc prints them. -/
def joinComma : List String → String
  | [] => ""
  | [g] => g
  | g :: rest => g ++ ", " ++ joinComma rest

/-- Rendering of a parsed descriptor back to the unescaped descriptor
string. -/
def renderDescriptor (d : Descriptor) : String :=
  "impl" ++
    (if d.generics = [] then "" else "<" ++ joinComma d.generics ++ ">") ++
    " " ++ d.traitName ++ " for " ++ d.selfType

/-- Replacement of every occurrence of a nonempty pattern in a character
list, with fuel bounding the number of steps. -/
def replaceSub (pat rep : List Char) : Nat → List Char → List Char
  | 0, cs => cs
  | _ + 1, [] => []
  | n + 1, c :: rest =>
    if pat.isPrefixOf (c :: rest) ∧ pat ≠ [] then
      rep ++ replaceSub pat rep n ((c :: rest).drop pat.length)
    else
      c :: replaceSub pat rep n rest

/-- Substitution of the trait name TrySignature by SetSignature inside a
descriptor string. -/
def substTrait (s : String) : String :=
  ⟨replaceSub "TrySignature".data "SetSignature".data s.data.length s.data⟩

/-- C3: each of the four files assigns exactly the crate keys identity_core,
identity_credential, identity_did, identity_iota (in this order, which in
particular gives the claimed key set), its trait is one of DerefMut,
TrySignature, TrySignatureMut, SetSignature, and every record of the file
names exactly that single trait. -/
theorem c3_crate_keys_and_single_trait (f : ImplFile) :
    (registryOf f).map Prod.fst =
      ["identity_core", "identity_credential", "identity_did", "identity_iota"]
    ∧ (["DerefMut", "TrySignature", "TrySignatureMut", "SetSignature"].contains (traitOf f)) = true
    ∧ ((registryOf f).all (fun p => p.2.all (fun e =>
        match parseImplText e.text with
        | some d => d.traitName == traitOf f
        | none => false))) = true := by
  cases f <;> exact ⟨rfl, rfl, rfl⟩

/-- C4: within every one of the four files the crate keys of the registry
object are pairwise distinct. -/
theorem c4_crate_keys_nodup (f : ImplFile) :
    ((registryOf f).map Prod.fst).Nodup := by
  cases f <;> decide

/-- C5: every record of every crate list parses as an (implementing-type,
trait, generic-parameter-list) record, the parse loses nothing (rendering
the parsed descriptor and re-escaping it gives back the stored text
verbatim), and the trait of every record is the single trait the file
indexes. -/
theorem c5_records_recoverable (f : ImplFile) :
    ((registryOf f).all (fun p => p.2.all (fun e =>
      match parseImplText e.text with
      | some d =>
        (d.traitName == traitOf f) &&
          (escapeAngles (renderDescriptor d).data == e.text.data)
      | none => false))) = true := by
  cases f <;> rfl

/-- C6: in every text field of every record of the four files no raw angle
bracket occurs (angle brackets appear only as the two HTML entities), and
every text field parses as a well-formed impl descriptor. -/
theorem c6_texts_escaped_and_wellformed (f : ImplFile) :
    ((registryOf f).all (fun p => p.2.all (fun e =>
      e.text.data.all (fun c => (c != '<') && (c != '>'))
        && (parseImplText e.text).isSome))) = true := by
  cases f <;> rfl

/-- C8: the SetSignature registry is exactly the TrySignature registry with
the trait name substituted in every text field, and the implementing-type
sequences of the TrySignature file are, crate by crate, the ones the claim
enumerates (so both files list the same types in the same order). -/
theorem c8_trySignature_setSignature_coincide :
    registryOf ImplFile.setSignature =
      (registryOf ImplFile.trySignature).map
        (fun p => (p.1, p.2.map (fun e => { e with text := substTrait e.text })))
    ∧ (registryOf ImplFile.trySignature).map
        (fun p => (p.1, p.2.map (fun e => (parseImplText e.text).map Descriptor.selfType)))
      = [("identity_core", []),
         ("identity_credential",
          [some "VerifiableCredential<T>", some "VerifiablePresentation<T, U>"]),
         ("identity_did",
          [some "Document<Properties<T>, U, V>", some "Properties<T>"]),
         ("identity_iota", [some "IotaDocument", some "DocumentDiff"])] :=
  ⟨by decide, by decide⟩

/-- C9: every record of every crate list of the four files has synthetic
equal to false and types equal to the empty array (the record type Entry
itself has exactly the three fields text, synthetic, types), and in the
three signature-trait files the identity_core crate maps to the empty
list. -/
theorem c9_record_shape (f : ImplFile) :
    ((registryOf f).all (fun p => p.2.all (fun e =>
      (e.synthetic == false) && (e.types == ([] : List String))))) = true
    ∧ (f = ImplFile.trySignature ∨ f = ImplFile.trySignatureMut ∨ f = ImplFile.setSignature →
       regLookup "identity_core" (registryOf f) = some []) := by
  cases f with
  | derefMut => exact ⟨rfl, fun h => absurd h (by decide)⟩
  | trySignature => exact ⟨rfl, fun _ => rfl⟩
  | trySignatureMut => exact ⟨rfl, fun _ => rfl⟩
  | setSignature => exact ⟨rfl, fun _ => rfl⟩

/-- Witness for c9_record_shape at the SetSignature file: its records are
all non-synthetic with empty types, and its identity_core list is empty. -/
theorem c9_record_shape_witness :
    ((registryOf ImplFile.setSignature).all (fun p => p.2.all (fun e =>
      (e.synthetic == false) && (e.types == ([] : List String))))) = true
    ∧ regLookup "identity_core" (registryOf ImplFile.setSignature) = some [] :=
  ⟨(c9_record_shape ImplFile.setSignature).1,
   (c9_record_shape ImplFile.setSignature).2 (Or.inr (Or.inr rfl))⟩

/-- C1: evaluating any one of the four files on any window state first
builds the file's registry and then performs the handshake: when
window.register_implementors holds the (truthy) external callback and that
callback returns normally, it is invoked exactly once with the registry as
its sole argument and the window, in particular pending_implementors, is
left unchanged by the script; when the property is absent or falsy,
pending_implementors is assigned the registry. -/
theorem c1_single_file_handshake (cbOk : Nat → Registry → Bool) (f : ImplFile) (w : Window) :
    (∀ id, w.props "register_implementors" = some (JSVal.func id) →
       cbOk id (registryOf f) = true →
       evalImplFile cbOk f w = some (w, [(id, registryOf f)]))
    ∧ (isTruthyReg w = false →
       evalImplFile cbOk f w =
         some (w.set "pending_implementors" (JSVal.registry (registryOf f)), [])) := by
  constructor
  · intro id hreg hcb
    unfold evalImplFile evalScript
    rw [hreg]
    simp [truthy, hcb]
  · intro hfalse
    unfold evalImplFile evalScript
    cases hreg : w.props "register_implementors" with
    | none => rfl
    | some v =>
      have htr : truthy v = false := by
        unfold isTruthyReg at hfalse
        rw [hreg] at hfalse
        exact hfalse
      simp [htr]

/-- Witness for c1_single_file_handshake: with a callback installed under
id 0 it is called once with the DerefMut registry and the window is
unchanged; on the empty window the TrySignature registry is stashed in
pending_implementors. -/
theorem c1_single_file_handshake_witness :
    evalImplFile cbAlwaysOk ImplFile.derefMut funcWindow =
      some (funcWindow, [(0, registryOf ImplFile.derefMut)])
    ∧ evalImplFile cbAlwaysOk ImplFile.trySignature emptyWindow =
      some (Window.set emptyWindow "pending_implementors"
              (JSVal.registry (registryOf ImplFile.trySignature)), []) :=
  ⟨(c1_single_file_handshake cbAlwaysOk ImplFile.derefMut funcWindow).1 0 rfl rfl,
   (c1_single_file_handshake cbAlwaysOk ImplFile.trySignature emptyWindow).2 rfl⟩

/-- C7: evaluation of any of the four files on any window state terminates
normally, under the hypothesis that whatever truthy value is stored under
register_implementors is the external callback (a function) and that it
returns normally on the registry it is given. -/
theorem c7_evaluation_never_throws (cbOk : Nat → Registry → Bool) (f : ImplFile) (w : Window)
    (h : ∀ v, w.props "register_implementors" = some v → truthy v = true →
         ∃ id, v = JSVal.func id ∧ cbOk id (registryOf f) = true) :
    (evalImplFile cbOk f w).isSome = true := by
  unfold evalImplFile evalScript
  cases hreg : w.props "register_implementors" with
  | none => rfl
  | some v =>
    cases htr : truthy v with
    | false => simp [htr]
    | true =>
      obtain ⟨id, rfl, hcb⟩ := h v hreg htr
      simp [truthy, hcb]

/-- Witness for c7_evaluation_never_throws on the empty window state, where
the hypothesis holds vacuously. -/
theorem c7_evaluation_never_throws_witness :
    (evalImplFile cbAlwaysOk ImplFile.setSignature emptyWindow).isSome = true :=
  c7_evaluation_never_throws cbAlwaysOk ImplFile.setSignature emptyWindow
    (fun _ hv _ => Option.noConfusion hv)

/-- C10: a normally terminating evaluation of any of the four files changes
no window property other than pending_implementors, and when
register_implementors is truthy the script writes no window property at
all (the resulting window is the initial one). -/
theorem c10_frame_effect (cbOk : Nat → Registry → Bool) (f : ImplFile)
    (w w2 : Window) (calls : List (Nat × Registry)) (p : String)
    (h : evalImplFile cbOk f w = some (w2, calls)) (hp : p ≠ "pending_implementors") :
    w2.props p = w.props p ∧ (isTruthyReg w = true → w2 = w) := by
  unfold evalImplFile evalScript at h
  cases hreg : w.props "register_implementors" with
  | none =>
    rw [hreg] at h
    have hw : some (w.set "pending_implementors" (JSVal.registry (registryOf f)),
        ([] : List (Nat × Registry))) = some (w2, calls) := h
    injection hw with hw1
    injection hw1 with hw2 hw3
    subst hw2
    subst hw3
    refine ⟨set_props_ne w _ p _ hp, fun hc => ?_⟩
    have hfalse : (false : Bool) = true := by
      unfold isTruthyReg at hc
      rw [hreg] at hc
      exact hc
    cases hfalse
  | some v =>
    rw [hreg] at h
    cases htr : truthy v with
    | false =>
      simp [htr] at h
      obtain ⟨hw2, hw3⟩ := h
      subst hw2
      subst hw3
      refine ⟨set_props_ne w _ p _ hp, fun hc => ?_⟩
      have hfalse : truthy v = true := by
        unfold isTruthyReg at hc
        rw [hreg] at hc
        exact hc
      rw [htr] at hfalse
      cases hfalse
    | true =>
      simp [htr] at h
      cases v with
      | func id =>
        cases hcb : cbOk id (registryOf f) with
        | false => simp [hcb] at h
        | true =>
          simp [hcb] at h
          obtain ⟨hw2, hw3⟩ := h
          subst hw2
          subst hw3
          exact ⟨rfl, fun _ => rfl⟩
      | registry r => simp at h
      | prim b => simp at h

/-- Witness for c10_frame_effect: evaluating the DerefMut file on a window
holding a callback leaves every other property, here the property a,
unchanged, and since the callback is truthy the window is unchanged. -/
theorem c10_frame_effect_witness :
    funcWindow.props "a" = funcWindow.props "a"
    ∧ (isTruthyReg funcWindow = true → funcWindow = funcWindow) :=
  c10_frame_effect cbAlwaysOk ImplFile.derefMut funcWindow funcWindow
    [(0, registryOf ImplFile.derefMut)] "a" rfl (by decide)

/-- C2 counterexample: on the empty window (register_implementors
undefined), evaluating trait.DerefMut.js and then trait.TrySignature.js
leaves pending_implementors holding only the TrySignature registry, while
register_implementors is still undefined; the DerefMut registry maps
identity_core to three entries but the surviving stash maps it to the empty
list, so the first file's entries are lost before any registration, contrary
to the claim that both files' registries remain available. -/
theorem c2_out_of_order_counterexample :
    (evalTwo cbAlwaysOk ImplFile.derefMut ImplFile.trySignature emptyWindow).map
      (fun w2 => (w2.props "pending_implementors", w2.props "register_implementors"))
      = some (some (JSVal.registry (registryOf ImplFile.trySignature)), none)
    ∧ regLookup "identity_core" (registryOf ImplFile.trySignature) = some []
    ∧ regLookup "identity_core" (registryOf ImplFile.derefMut) =
        some [ { text := "impl DerefMut for Url", synthetic := false, types := [] },
               { text := "impl DerefMut for Signature", synthetic := false, types := [] },
               { text := "impl DerefMut for SignatureValue", synthetic := false, types := [] } ] := by
  refine ⟨?_, rfl, rfl⟩
  rfl

/-- C2 as amended: when register_implementors is undefined, evaluating any
two of the four files in either order terminates normally and leaves
pending_implementors equal to the second file's registry (the second
assignment overwrites the first stash, so only the most recently evaluated
file's entries remain available), with register_implementors still
undefined. -/
theorem c2_pending_overwritten (cbOk : Nat → Registry → Bool) (f1 f2 : ImplFile) (w : Window)
    (h : w.props "register_implementors" = none) :
    (evalTwo cbOk f1 f2 w).map
      (fun w2 => (w2.props "pending_implementors", w2.props "register_implementors"))
      = some (some (JSVal.registry (registryOf f2)), none) := by
  have hne : ("register_implementors" : String) ≠ "pending_implementors" := by decide
  have h1 : (w.set "pending_implementors"
      (JSVal.registry (registryOf f1))).props "register_implementors" = none := by
    rw [set_props_ne w _ _ _ hne]
    exact h
  unfold evalTwo evalScript
  rw [h]
  simp [h1, set_props_eq, set_props_ne _ _ _ _ hne]

/-- Witness for c2_pending_overwritten: DerefMut then TrySignature on the
empty window stashes exactly the TrySignature registry. -/
theorem c2_pending_overwritten_witness :
    (evalTwo cbAlwaysOk ImplFile.derefMut ImplFile.trySignature emptyWindow).map
      (fun w2 => (w2.props "pending_implementors", w2.props "register_implementors"))
      = some (some (JSVal.registry (registryOf ImplFile.trySignature)), none) :=
  c2_pending_overwritten cbAlwaysOk ImplFile.derefMut ImplFile.trySignature emptyWindow rfl
